import Mathlib

/-!
Verification of the mathue transformation-algebra core.

The TypeScript classes (Vector1-4, Matrix4, Quaternion, PolarCoordinate3,
from src/) are embedded shallowly over exact rational arithmetic.  Every
formula is translated line by line from the current class in each source
file.  Square roots and trigonometric functions, which have no exact
rational counterpart, enter as explicit function parameters, so theorems
hold for every function in their place and concrete witnesses instantiate
them with tables of the needed reference values.  JavaScript division by
zero yields NaN or an infinity, neither of which is a rational value; where
the source divides without a zero guard the embedding returns an Option,
with none standing for such a non-numeric result.  Mutating methods are
embedded as functions from the receiver value to the updated value;
methods that can fail return the result Option together with the receiver
state after the call.
-/

namespace Mathue

/-- JavaScript division for an unguarded division site: a zero divisor
produces NaN or an infinity (none); otherwise the exact quotient. -/
def jsDiv (a b : ℚ) : Option ℚ := if b = 0 then none else some (a / b)

/-- Constant EPSILON = 1.0e-8 of the current Matrix4 class (src/Matrix4.ts,
second class in the file), used for the singularity test in invert. -/
def EPSILON : ℚ := 1 / 100000000

/-- Vector1 from src/Vector1.ts: a single component x. -/
@[ext] structure Vector1 where
  x : ℚ
deriving DecidableEq, Repr

namespace Vector1

/-- Method length of Vector1: Math.abs(x). -/
def length (v : Vector1) : ℚ := |v.x|

/-- Method normalize of Vector1 (src/Vector1.ts lines 264-267): it runs
x /= length() with NO zero-length guard, so a zero vector produces the
JavaScript result 0/0 = NaN, modelled as none. -/
def normalize (v : Vector1) : Option Vector1 :=
  (jsDiv v.x v.length).map Vector1.mk

end Vector1

/-- Vector2 from src/Vector2.ts: components x, y. -/
@[ext] structure Vector2 where
  x : ℚ
  y : ℚ
deriving DecidableEq, Repr

namespace Vector2

/-- Method divideScalar of Vector2: componentwise division. -/
def divideScalar (v : Vector2) (s : ℚ) : Vector2 := ⟨v.x / s, v.y / s⟩

/-- Method length of Vector2: Math.sqrt(x^2 + y^2); the square root is a
function parameter. -/
def length (sqrt : ℚ → ℚ) (v : Vector2) : ℚ := sqrt (v.x ^ 2 + v.y ^ 2)

/-- Method normalize of Vector2: no-op when length() <= 0, else divide by
the length. -/
def normalize (sqrt : ℚ → ℚ) (v : Vector2) : Vector2 :=
  let len := v.length sqrt
  if len ≤ 0 then v else v.divideScalar len

end Vector2

/-- Vector3 from src/Vector3.ts: elements [x, y, z]. -/
@[ext] structure Vector3 where
  x : ℚ
  y : ℚ
  z : ℚ
deriving DecidableEq, Repr

namespace Vector3

/-- Factory zero of Vector3. -/
def zero : Vector3 := ⟨0, 0, 0⟩

/-- Method isZero of Vector3: exact comparison of every component with 0. -/
def isZero (v : Vector3) : Bool :=
  decide (v.x = 0) && decide (v.y = 0) && decide (v.z = 0)

/-- Method divideScalar of Vector3: componentwise division. -/
def divideScalar (v : Vector3) (s : ℚ) : Vector3 := ⟨v.x / s, v.y / s, v.z / s⟩

/-- Method length of Vector3: Math.sqrt(x^2 + y^2 + z^2); the square root
is a function parameter. -/
def length (sqrt : ℚ → ℚ) (v : Vector3) : ℚ := sqrt (v.x ^ 2 + v.y ^ 2 + v.z ^ 2)

/-- Method normalize of Vector3 (src/Vector3.ts lines 337-343): no-op when
length() <= 0, else divide by the length. -/
def normalize (sqrt : ℚ → ℚ) (v : Vector3) : Vector3 :=
  let len := v.length sqrt
  if len ≤ 0 then v else v.divideScalar len

end Vector3

/-- Vector4 from src/Vector4.ts: elements [x, y, z, w]. -/
@[ext] structure Vector4 where
  x : ℚ
  y : ℚ
  z : ℚ
  w : ℚ
deriving DecidableEq, Repr

namespace Vector4

/-- Method divideScalar of Vector4: componentwise division. -/
def divideScalar (v : Vector4) (s : ℚ) : Vector4 :=
  ⟨v.x / s, v.y / s, v.z / s, v.w / s⟩

/-- Method length of Vector4: Math.sqrt of the sum of squares; the square
root is a function parameter. -/
def length (sqrt : ℚ → ℚ) (v : Vector4) : ℚ :=
  sqrt (v.x ^ 2 + v.y ^ 2 + v.z ^ 2 + v.w ^ 2)

/-- Method normalize of Vector4 (src/Vector4.ts lines 396-402): no-op when
length() <= 0, else divide by the length. -/
def normalize (sqrt : ℚ → ℚ) (v : Vector4) : Vector4 :=
  let len := v.length sqrt
  if len ≤ 0 then v else v.divideScalar len

end Vector4

/-- Quaternion from src/Quaternion.ts, Hamilton form a + bi + cj + dk. -/
@[ext] structure Quaternion where
  a : ℚ
  b : ℚ
  c : ℚ
  d : ℚ
deriving DecidableEq, Repr

namespace Quaternion

/-- Factory identity of Quaternion: (1, 0, 0, 0). -/
def identity : Quaternion := ⟨1, 0, 0, 0⟩

/-- Method squaredNorm: a^2 + b^2 + c^2 + d^2. -/
def squaredNorm (q : Quaternion) : ℚ := q.a ^ 2 + q.b ^ 2 + q.c ^ 2 + q.d ^ 2

/-- Method conjugate: negates the i, j, k coefficients. -/
def conjugate (q : Quaternion) : Quaternion := ⟨q.a, -q.b, -q.c, -q.d⟩

/-- Method divideScalar of Quaternion: componentwise division. -/
def divideScalar (q : Quaternion) (s : ℚ) : Quaternion :=
  ⟨q.a / s, q.b / s, q.c / s, q.d / s⟩

/-- Method multiply of Quaternion: the Hamilton product, translated from
src/Quaternion.ts lines 334-342 (receiver t, argument o). -/
def multiply (t o : Quaternion) : Quaternion :=
  ⟨t.a * o.a - t.b * o.b - t.c * o.c - t.d * o.d,
   t.a * o.b + t.b * o.a + t.c * o.d - t.d * o.c,
   t.a * o.c - t.b * o.d + t.c * o.a + t.d * o.b,
   t.a * o.d + t.b * o.c - t.c * o.b + t.d * o.a⟩

/-- Method invert of Quaternion (src/Quaternion.ts lines 355-361): null when
squaredNorm() <= 0, else conjugate().divideScalar(squaredNorm()). -/
def invert (q : Quaternion) : Option Quaternion :=
  let norm2 := q.squaredNorm
  if norm2 ≤ 0 then none
  else some ((q.conjugate).divideScalar norm2)

/-- One call of invert seen as (returned result, receiver state after the
call): the failing branch of the source returns null before any write. -/
def invertCall (q : Quaternion) : Option Quaternion × Quaternion :=
  match q.invert with
  | none => (none, q)
  | some r => (some r, r)

/-- Method divide of Quaternion: copies the argument into the shared scratch
quaternion, inverts the scratch, and multiplies on success; returns the
result together with the receiver state after the call. -/
def divideCall (p q : Quaternion) : Option Quaternion × Quaternion :=
  match q.invert with
  | none => (none, p)
  | some t => let r := p.multiply t; (some r, r)

/-- Method setAxisAndAngle (src/Quaternion.ts lines 216-225), with sqrt, sin
and cos as function parameters.  The zero-axis branch returns setIdentity()
without touching the axis; the other branch first normalizes the axis in
place (a mutation of the caller argument), then builds the quaternion.
Returns (quaternion state, axis state) after the call. -/
def setAxisAndAngle (sqrt sin cos : ℚ → ℚ) (_q : Quaternion) (axis : Vector3)
    (angle : ℚ) : Quaternion × Vector3 :=
  if axis.isZero then (identity, axis)
  else
    let axisN := axis.normalize sqrt
    let s := sin (angle / 2)
    (⟨cos (angle / 2), axisN.x * s, axisN.y * s, axisN.z * s⟩, axisN)

/-- Factory fromAxisAndAngle (src/Quaternion.ts lines 122-126): identity()
then setAxisAndAngle. -/
def fromAxisAndAngle (sqrt sin cos : ℚ → ℚ) (axis : Vector3) (angle : ℚ) :
    Quaternion :=
  (setAxisAndAngle sqrt sin cos identity axis angle).1

end Quaternion

/-- Matrix4, the current class of src/Matrix4.ts (the second class in the
file): a column-major buffer [e00, e01, ..., e33] where constructor
parameter e(column)(row) lands at buffer index column * 4 + row. -/
@[ext] structure Matrix4 where
  e00 : ℚ
  e01 : ℚ
  e02 : ℚ
  e03 : ℚ
  e10 : ℚ
  e11 : ℚ
  e12 : ℚ
  e13 : ℚ
  e20 : ℚ
  e21 : ℚ
  e22 : ℚ
  e23 : ℚ
  e30 : ℚ
  e31 : ℚ
  e32 : ℚ
  e33 : ℚ
deriving DecidableEq, Repr

namespace Matrix4

/-- Factory identity of Matrix4. -/
def identity : Matrix4 := ⟨1, 0, 0, 0, 0, 1, 0, 0, 0, 0, 1, 0, 0, 0, 0, 1⟩

/-- Factory zero of Matrix4. -/
def zero : Matrix4 := ⟨0, 0, 0, 0, 0, 0, 0, 0, 0, 0, 0, 0, 0, 0, 0, 0⟩

/-- Method setScale (src/Matrix4.ts lines 565-576): setIdentity(), then the
loop multiplies buffer block row * 4 + column by the scalar of that row
(scale.x, scale.y, scale.z, then 1); written with the loop carried out on
the identity entries. -/
def setScale (_m : Matrix4) (scale : Vector3) : Matrix4 :=
  ⟨1 * scale.x, 0 * scale.x, 0 * scale.x, 0 * scale.x,
   0 * scale.y, 1 * scale.y, 0 * scale.y, 0 * scale.y,
   0 * scale.z, 0 * scale.z, 1 * scale.z, 0 * scale.z,
   0 * 1, 0 * 1, 0 * 1, 1 * 1⟩

/-- Method setTranslation (src/Matrix4.ts lines 595-604), translated exactly
as written: the buffer is destructured BEFORE setIdentity(), and buffer
indexes 12..15 are then assigned from those pre-reset values; the first
twelve entries are the identity entries written by setIdentity(). -/
def setTranslation (m : Matrix4) (t : Vector3) : Matrix4 :=
  ⟨1, 0, 0, 0, 0, 1, 0, 0, 0, 0, 1, 0,
   m.e00 * t.x + m.e10 * t.y + m.e20 * t.z + m.e30,
   m.e01 * t.x + m.e11 * t.y + m.e21 * t.z + m.e31,
   m.e02 * t.x + m.e12 * t.y + m.e22 * t.z + m.e32,
   m.e03 * t.x + m.e13 * t.y + m.e23 * t.z + m.e33⟩

/-- Method setRotation (src/Matrix4.ts lines 623-654): overwrites every
buffer entry from the quaternion with s = 2 / squaredNorm(); the receiver
contents before the call do not matter. -/
def setRotation (_m : Matrix4) (q : Quaternion) : Matrix4 :=
  let s := 2 / q.squaredNorm
  let b2 := q.b ^ 2
  let c2 := q.c ^ 2
  let d2 := q.d ^ 2
  let ab := q.a * q.b
  let ac := q.a * q.c
  let ad := q.a * q.d
  let bc := q.b * q.c
  let bd := q.b * q.d
  let cd := q.c * q.d
  ⟨1 - s * (c2 + d2), s * (bc - ad), s * (bd + ac), 0,
   s * (bc + ad), 1 - s * (b2 + d2), s * (cd - ab), 0,
   s * (bd - ac), s * (cd + ab), 1 - s * (b2 + c2), 0,
   0, 0, 0, 1⟩

/-- Method multiply (src/Matrix4.ts lines 771-791), translated assignment by
assignment: receiver buffer a = t, argument buffer b = o, and
elements[i] gets the i-th formula. -/
def multiply (t o : Matrix4) : Matrix4 :=
  ⟨o.e00 * t.e00 + o.e01 * t.e10 + o.e02 * t.e20 + o.e03 * t.e30,
   o.e00 * t.e01 + o.e01 * t.e11 + o.e02 * t.e21 + o.e03 * t.e31,
   o.e00 * t.e02 + o.e01 * t.e12 + o.e02 * t.e22 + o.e03 * t.e32,
   o.e00 * t.e03 + o.e01 * t.e13 + o.e02 * t.e23 + o.e03 * t.e33,
   o.e10 * t.e00 + o.e11 * t.e10 + o.e12 * t.e20 + o.e13 * t.e30,
   o.e10 * t.e01 + o.e11 * t.e11 + o.e12 * t.e21 + o.e13 * t.e31,
   o.e10 * t.e02 + o.e11 * t.e12 + o.e12 * t.e22 + o.e13 * t.e32,
   o.e10 * t.e03 + o.e11 * t.e13 + o.e12 * t.e23 + o.e13 * t.e33,
   o.e20 * t.e00 + o.e21 * t.e10 + o.e22 * t.e20 + o.e23 * t.e30,
   o.e20 * t.e01 + o.e21 * t.e11 + o.e22 * t.e21 + o.e23 * t.e31,
   o.e20 * t.e02 + o.e21 * t.e12 + o.e22 * t.e22 + o.e23 * t.e32,
   o.e20 * t.e03 + o.e21 * t.e13 + o.e22 * t.e23 + o.e23 * t.e33,
   o.e30 * t.e00 + o.e31 * t.e10 + o.e32 * t.e20 + o.e33 * t.e30,
   o.e30 * t.e01 + o.e31 * t.e11 + o.e32 * t.e21 + o.e33 * t.e31,
   o.e30 * t.e02 + o.e31 * t.e12 + o.e32 * t.e22 + o.e33 * t.e32,
   o.e30 * t.e03 + o.e31 * t.e13 + o.e32 * t.e23 + o.e33 * t.e33⟩

/-- Method determinant (src/Matrix4.ts lines 824-840), the closed cofactor
expansion over the destructured buffer a00..a33. -/
def determinant (m : Matrix4) : ℚ :=
  m.e00 * (m.e11 * (m.e22 * m.e33 - m.e23 * m.e32) -
  m.e12 * (m.e21 * m.e33 - m.e23 * m.e31) +
  m.e13 * (m.e21 * m.e32 - m.e22 * m.e31)) -
  m.e01 * (m.e10 * (m.e22 * m.e33 - m.e23 * m.e32) -
  m.e12 * (m.e20 * m.e33 - m.e23 * m.e30) +
  m.e13 * (m.e20 * m.e32 - m.e22 * m.e30)) +
  m.e02 * (m.e10 * (m.e21 * m.e33 - m.e23 * m.e31) -
  m.e11 * (m.e20 * m.e33 - m.e23 * m.e30) +
  m.e13 * (m.e20 * m.e31 - m.e21 * m.e30)) -
  m.e03 * (m.e10 * (m.e21 * m.e32 - m.e22 * m.e31) -
  m.e11 * (m.e20 * m.e32 - m.e22 * m.e30) +
  m.e12 * (m.e20 * m.e31 - m.e21 * m.e30))

/-- Method invert (src/Matrix4.ts lines 846-891): null when
|determinant| < EPSILON (before any write), else the adjugate-over-
determinant formulas, translated assignment by assignment. -/
def invert (m : Matrix4) : Option Matrix4 :=
  let determinant := m.determinant
  if |determinant| < EPSILON then none
  else
    let tmp0 := m.e22 * m.e33 - m.e23 * m.e32
    let tmp1 := m.e21 * m.e33 - m.e23 * m.e31
    let tmp2 := m.e21 * m.e32 - m.e22 * m.e31
    let tmp3 := m.e12 * m.e33 - m.e13 * m.e32
    let tmp4 := m.e11 * m.e33 - m.e13 * m.e31
    let tmp5 := m.e11 * m.e32 - m.e12 * m.e31
    let tmp6 := m.e12 * m.e23 - m.e13 * m.e22
    let tmp7 := m.e11 * m.e23 - m.e13 * m.e21
    let tmp8 := m.e11 * m.e22 - m.e12 * m.e21
    let tmp9 := m.e20 * m.e33 - m.e23 * m.e30
    let tmp10 := m.e20 * m.e32 - m.e22 * m.e30
    let tmp11 := m.e10 * m.e33 - m.e13 * m.e30
    let tmp12 := m.e10 * m.e32 - m.e12 * m.e30
    let tmp13 := m.e10 * m.e23 - m.e13 * m.e20
    let tmp14 := m.e10 * m.e22 - m.e12 * m.e20
    let tmp15 := m.e20 * m.e31 - m.e21 * m.e30
    let tmp16 := m.e10 * m.e31 - m.e11 * m.e30
    let tmp17 := m.e10 * m.e21 - m.e11 * m.e20
    some
      ⟨(m.e11 * tmp0 - m.e12 * tmp1 + m.e13 * tmp2) / determinant,
       -(m.e01 * tmp0 - m.e02 * tmp1 + m.e03 * tmp2) / determinant,
       (m.e01 * tmp3 - m.e02 * tmp4 + m.e03 * tmp5) / determinant,
       -(m.e01 * tmp6 - m.e02 * tmp7 + m.e03 * tmp8) / determinant,
       -(m.e10 * tmp0 - m.e12 * tmp9 + m.e13 * tmp10) / determinant,
       (m.e00 * tmp0 - m.e02 * tmp9 + m.e03 * tmp10) / determinant,
       -(m.e00 * tmp3 - m.e02 * tmp11 + m.e03 * tmp12) / determinant,
       (m.e00 * tmp6 - m.e02 * tmp13 + m.e03 * tmp14) / determinant,
       (m.e10 * tmp1 - m.e11 * tmp9 + m.e13 * tmp15) / determinant,
       -(m.e00 * tmp1 - m.e01 * tmp9 + m.e03 * tmp15) / determinant,
       (m.e00 * tmp4 - m.e01 * tmp11 + m.e03 * tmp16) / determinant,
       -(m.e00 * tmp7 - m.e01 * tmp13 + m.e03 * tmp17) / determinant,
       -(m.e10 * tmp2 - m.e11 * tmp10 + m.e12 * tmp15) / determinant,
       (m.e00 * tmp2 - m.e01 * tmp10 + m.e02 * tmp15) / determinant,
       -(m.e00 * tmp5 - m.e01 * tmp12 + m.e02 * tmp16) / determinant,
       (m.e00 * tmp8 - m.e01 * tmp14 + m.e02 * tmp17) / determinant⟩

/-- One call of invert seen as (returned result, receiver state after the
call): the failing branch of the source returns null before any write. -/
def invertCall (m : Matrix4) : Option Matrix4 × Matrix4 :=
  match m.invert with
  | none => (none, m)
  | some r => (some r, r)

/-- Method divide (src/Matrix4.ts lines 919-926): copies the argument into
the shared scratch matrix, inverts the scratch, multiplies on success;
returns the result together with the receiver state after the call. -/
def divideCall (m other : Matrix4) : Option Matrix4 × Matrix4 :=
  match other.invert with
  | none => (none, m)
  | some inv => let r := m.multiply inv; (some r, r)

/-- Method applyVector (src/Matrix4.ts lines 1037-1049, written there as one
underscore followed by applyVector): the homogeneous product of the matrix
with the column vector (x, y, z, w), written into the shared scratch
Vector4. -/
def applyVector (m : Matrix4) (x y z w : ℚ) : Vector4 :=
  ⟨m.e00 * x + m.e10 * y + m.e20 * z + m.e30 * w,
   m.e01 * x + m.e11 * y + m.e21 * z + m.e31 * w,
   m.e02 * x + m.e12 * y + m.e22 * z + m.e32 * w,
   m.e03 * x + m.e13 * y + m.e23 * z + m.e33 * w⟩

/-- Method multiplyScale (src/Matrix4.ts lines 798-800): builds the scale
matrix in the shared scratch matrix, then multiplies; takes and returns the
scratch state alongside the receiver. -/
def multiplyScale (m tmp : Matrix4) (scale : Vector3) : Matrix4 × Matrix4 :=
  let t := tmp.setScale scale
  (m.multiply t, t)

/-- Method multiplyTranslation (src/Matrix4.ts lines 807-809): builds the
translation matrix in the shared scratch matrix, then multiplies; takes and
returns the scratch state alongside the receiver. -/
def multiplyTranslation (m tmp : Matrix4) (position : Vector3) :
    Matrix4 × Matrix4 :=
  let t := tmp.setTranslation position
  (m.multiply t, t)

/-- Method multiplyRotation (src/Matrix4.ts lines 816-818): builds the
rotation matrix in the shared scratch matrix, then multiplies; takes and
returns the scratch state alongside the receiver. -/
def multiplyRotation (m tmp : Matrix4) (rotation : Quaternion) :
    Matrix4 × Matrix4 :=
  let t := tmp.setRotation rotation
  (m.multiply t, t)

end Matrix4

namespace Vector3

/-- Method applyMatrix4 of Vector3 (src/Vector3.ts lines 403-409): copies
the matrix into the shared scratch (a value copy), applies it to
(x, y, z, 0) - the implicit w is 0 - and writes x, y, z back. -/
def applyMatrix4 (v : Vector3) (matrix : Matrix4) : Vector3 :=
  let out := matrix.applyVector v.x v.y v.z 0
  ⟨out.x, out.y, out.z⟩

/-- Method applyQuaternion of Vector3 (src/Vector3.ts lines 416-422): sets
the shared scratch matrix from the quaternion with setRotation, applies it
to (x, y, z, 0), and writes x, y, z back. -/
def applyQuaternion (v : Vector3) (q : Quaternion) : Vector3 :=
  let m := Matrix4.setRotation Matrix4.identity q
  let out := m.applyVector v.x v.y v.z 0
  ⟨out.x, out.y, out.z⟩

end Vector3

/-- PolarCoordinate3 from src/PolarCoordinate3.ts: phi (polar angle from the
positive z-axis), theta (azimuthal angle), radius.  Angles are abstract
scalars consumed only through the sin and cos parameters. -/
@[ext] structure PolarCoordinate3 where
  phi : ℚ
  theta : ℚ
  radius : ℚ
deriving DecidableEq, Repr

namespace PolarCoordinate3

/-- Method toVector3 (src/PolarCoordinate3.ts lines 72-80): writes
(radius * sin theta * cos phi, radius * sin theta * sin phi,
radius * cos theta) into the out vector; the receiver is only read. -/
def toVector3 (sin cos : ℚ → ℚ) (p : PolarCoordinate3) : Vector3 :=
  let sinTheta := sin p.theta
  ⟨p.radius * sinTheta * cos p.phi,
   p.radius * sinTheta * sin p.phi,
   p.radius * cos p.theta⟩

end PolarCoordinate3

/-!
Spec-side definitions: the mathematical reading of a Matrix4 buffer and the
matrix products named by the claims, written from the words of the spec.
-/

namespace Matrix4

/-- Mathematical entry (row r, column c) of a Matrix4 under the reading the
claims fix: constructor parameter e(column)(row) sits at buffer index
column * 4 + row, so entry (r, c) is the field e(c)(r). -/
def entry (m : Matrix4) (r c : Fin 4) : ℚ :=
  match r, c with
  | 0, 0 => m.e00
  | 1, 0 => m.e01
  | 2, 0 => m.e02
  | 3, 0 => m.e03
  | 0, 1 => m.e10
  | 1, 1 => m.e11
  | 2, 1 => m.e12
  | 3, 1 => m.e13
  | 0, 2 => m.e20
  | 1, 2 => m.e21
  | 2, 2 => m.e22
  | 3, 2 => m.e23
  | 0, 3 => m.e30
  | 1, 3 => m.e31
  | 2, 3 => m.e32
  | 3, 3 => m.e33

/-- The column-major buffer of a Matrix4 as a list, in element order. -/
def buffer (m : Matrix4) : List ℚ :=
  [m.e00, m.e01, m.e02, m.e03, m.e10, m.e11, m.e12, m.e13,
   m.e20, m.e21, m.e22, m.e23, m.e30, m.e31, m.e32, m.e33]

/-- Sanity check that entry really reads buffer index column * 4 + row. -/
theorem entry_eq_buffer (m : Matrix4) (r c : Fin 4) :
    m.entry r c = (m.buffer).getD (c.val * 4 + r.val) 0 := by
  fin_cases r <;> fin_cases c <;> rfl

/-- Builds a Matrix4 whose mathematical entry (r, c) is f r c. -/
def ofEntries (f : Fin 4 → Fin 4 → ℚ) : Matrix4 :=
  ⟨f 0 0, f 1 0, f 2 0, f 3 0,
   f 0 1, f 1 1, f 2 1, f 3 1,
   f 0 2, f 1 2, f 2 2, f 3 2,
   f 0 3, f 1 3, f 2 3, f 3 3⟩

theorem entry_ofEntries (f : Fin 4 → Fin 4 → ℚ) (r c : Fin 4) :
    (ofEntries f).entry r c = f r c := by
  fin_cases r <;> fin_cases c <;> rfl

/-- From the words of claim C1: the mathematical product B x A of the
argument times the receiver, read entrywise. -/
def productOtherTimesThis (A B : Matrix4) : Matrix4 :=
  ofEntries (fun r c => ∑ k : Fin 4, B.entry r k * A.entry k c)

/-- The mathematical product A x B of the receiver times the argument,
read entrywise. -/
def productThisTimesOther (A B : Matrix4) : Matrix4 :=
  ofEntries (fun r c => ∑ k : Fin 4, A.entry r k * B.entry k c)

/-- From the words of claim C2: the canonical translation matrix of t,
identity upper 3x3 block and last column (t.x, t.y, t.z, 1). -/
def canonicalTranslation (t : Vector3) : Matrix4 :=
  ⟨1, 0, 0, 0, 0, 1, 0, 0, 0, 0, 1, 0, t.x, t.y, t.z, 1⟩

end Matrix4

/-- The model-matrix chain of claim C3, with the shared scratch matrix
threaded explicitly: it is lazily created as an identity matrix, and each
multiply step first rebuilds it.  Starts from the identity model matrix,
then multiplyTranslation (1,2,3), multiplyRotation q, multiplyScale
(2,3,4). -/
def trsModel (q : Quaternion) : Matrix4 :=
  let m0 := Matrix4.identity
  let tmp0 := Matrix4.identity
  let p1 := Matrix4.multiplyTranslation m0 tmp0 ⟨1, 2, 3⟩
  let p2 := Matrix4.multiplyRotation p1.1 p1.2 q
  let p3 := Matrix4.multiplyScale p2.1 p2.2 ⟨2, 3, 4⟩
  p3.1

/-- Reference values of the sine function at integer multiples of pi over
two: the argument counts quarter turns, so qsin 1 = sin (pi / 2) = 1 and
qsin 2 = sin pi = 0. -/
def qsin (k : ℚ) : ℚ := if k = 1 then 1 else if k = 2 then 0 else 0

/-- Reference values of the cosine function at integer multiples of pi over
two: qcos 1 = cos (pi / 2) = 0 and qcos 2 = cos pi = -1. -/
def qcos (k : ℚ) : ℚ := if k = 1 then 0 else if k = 2 then -1 else 1

/-- Supporting fact: every quaternion (t, 0, 0, t) with t nonzero - each one
a positive or negative multiple of the unit quarter-turn-about-z quaternion
(cos 45, 0, 0, sin 45) - produces one and the same setRotation matrix,
because setRotation divides by the squared norm.  The matrix it produces
maps (1, 0, 0) to (0, -1, 0): the transpose of the standard quarter-turn
rotation matrix. -/
theorem setRotation_z_quarter (t : ℚ) (ht : t ≠ 0) (m : Matrix4) :
    Matrix4.setRotation m ⟨t, 0, 0, t⟩ =
      ⟨0, -1, 0, 0, 1, 0, 0, 0, 0, 0, 1, 0, 0, 0, 0, 1⟩ := by
  ext <;> simp only [Matrix4.setRotation, Quaternion.squaredNorm] <;>
    norm_num <;> field_simp <;> ring

/-- C1: the claim says this.multiply(other) stores the mathematical product
other x this; the code stores this x other.  At the concrete pair
A = translation by (1, 0, 0) and B = scale by (2, 1, 1), the code result
differs from the claimed product other x this (their translation entries at
row 0, column 3 are 1 and 2). -/
theorem C1_counterexample_multiply_not_other_times_this :
    Matrix4.multiply ⟨1, 0, 0, 0, 0, 1, 0, 0, 0, 0, 1, 0, 1, 0, 0, 1⟩
        ⟨2, 0, 0, 0, 0, 1, 0, 0, 0, 0, 1, 0, 0, 0, 0, 1⟩ ≠
      Matrix4.productOtherTimesThis
        ⟨1, 0, 0, 0, 0, 1, 0, 0, 0, 0, 1, 0, 1, 0, 0, 1⟩
        ⟨2, 0, 0, 0, 0, 1, 0, 0, 0, 0, 1, 0, 0, 0, 0, 1⟩ := by
  with_unfolding_all decide

/-- C1 (amended): for every pair of Matrix4 values A and B, A.multiply(B)
mutates A to the mathematical product A x B (the argument is
post-multiplied onto the receiver), each matrix read from its column-major
buffer with parameter e(col)(row) at buffer index col * 4 + row. -/
theorem C1_multiply_is_this_times_other (A B : Matrix4) :
    A.multiply B = Matrix4.productThisTimesOther A B := by
  ext <;>
    simp only [Matrix4.multiply, Matrix4.productThisTimesOther,
      Matrix4.ofEntries, Matrix4.entry, Fin.sum_univ_four] <;>
    ring

/-- C2: setTranslation is NOT an absolute setter.  On a receiver whose
buffer differs from the identity only at index 0 (value 2), translating by
(1, 2, 3) produces last column (2, 2, 3, 1) - the pre-reset buffer leaks
into the translation column - instead of the canonical translation matrix
with last column (1, 2, 3, 1) that the claim demands for every prior
content. -/
theorem C2_setTranslation_reads_prior_state :
    Matrix4.setTranslation ⟨2, 0, 0, 0, 0, 1, 0, 0, 0, 0, 1, 0, 0, 0, 0, 1⟩
        ⟨1, 2, 3⟩ =
      ⟨1, 0, 0, 0, 0, 1, 0, 0, 0, 0, 1, 0, 2, 2, 3, 1⟩ ∧
    Matrix4.setTranslation ⟨2, 0, 0, 0, 0, 1, 0, 0, 0, 0, 1, 0, 0, 0, 0, 1⟩
        ⟨1, 2, 3⟩ ≠
      Matrix4.canonicalTranslation ⟨1, 2, 3⟩ := by
  with_unfolding_all decide

/-- C3: the TRS chain of the claim - identity, multiplyTranslation (1,2,3),
multiplyRotation with a quarter-turn-about-z quaternion, multiplyScale
(2,3,4) - applied to the homogeneous point (1,1,1,1) yields (4, 0, 7, 1) in
the code, not the (-2, 4, 7) the claim (and the repository model-matrix
test) demand.  The rotation quaternion is (t, 0, 0, t) for ANY nonzero t:
these are exactly the real multiples of the unit quarter-turn-about-z
quaternion (cos 45, 0, 0, sin 45), and setRotation builds the same matrix
from each of them (setRotation_z_quarter). -/
theorem C3_trs_chain_evaluates_to_4_0_7 (t : ℚ) (ht : t ≠ 0) :
    Matrix4.applyVector (trsModel ⟨t, 0, 0, t⟩) 1 1 1 1 = ⟨4, 0, 7, 1⟩ ∧
    (⟨4, 0, 7, 1⟩ : Vector4) ≠ ⟨-2, 4, 7, 1⟩ := by
  constructor
  · simp only [trsModel, Matrix4.multiplyTranslation, Matrix4.multiplyRotation,
      Matrix4.multiplyScale]
    rw [setRotation_z_quarter t ht]
    with_unfolding_all decide
  · with_unfolding_all decide

/-- Witness for C3 at the concrete scale t = 1: the chain built with the
quaternion (1, 0, 0, 1) sends (1, 1, 1, 1) to (4, 0, 7, 1). -/
theorem C3_witness :
    Matrix4.applyVector (trsModel ⟨1, 0, 0, 1⟩) 1 1 1 1 = ⟨4, 0, 7, 1⟩ ∧
    (⟨4, 0, 7, 1⟩ : Vector4) ≠ ⟨-2, 4, 7, 1⟩ :=
  C3_trs_chain_evaluates_to_4_0_7 1 (by norm_num)

/-- C7: fromAxisAndAngle with the zero axis returns the identity quaternion
(1, 0, 0, 0) for every angle, and the zero-axis short-circuit never
consults sqrt, sin or cos (the conclusion holds for every choice of those
functions) and skips the axis normalization (the axis state after
setAxisAndAngle is the untouched zero vector). -/
theorem C7_zero_axis_gives_identity :
    ∀ (sqrt sin cos : ℚ → ℚ) (q0 : Quaternion) (angle : ℚ),
      Quaternion.fromAxisAndAngle sqrt sin cos ⟨0, 0, 0⟩ angle =
        Quaternion.identity ∧
      Quaternion.setAxisAndAngle sqrt sin cos q0 ⟨0, 0, 0⟩ angle =
        (Quaternion.identity, ⟨0, 0, 0⟩) := by
  intro sqrt sin cos q0 angle
  exact ⟨rfl, rfl⟩

/-- C10: applying a quaternion to a Vector3 gives exactly the same
components as building the rotation matrix with setRotation (from any prior
scratch contents m0, which setRotation overwrites completely) and applying
that matrix: the two code paths coincide. -/
theorem C10_applyQuaternion_equals_matrix_path :
    ∀ (v : Vector3) (q : Quaternion) (m0 : Matrix4),
      v.applyQuaternion q = v.applyMatrix4 (Matrix4.setRotation m0 q) := by
  intro v q m0
  rfl

/-- Helper: the singular branch of Matrix4.invert returns null. -/
theorem invert_none_of_singular (M : Matrix4)
    (h : |M.determinant| < EPSILON) : M.invert = none := by
  unfold Matrix4.invert
  exact if_pos h

/-- Helper: the singular branch of Quaternion.invert returns null. -/
theorem quaternion_invert_none_of_singular (q : Quaternion)
    (h : q.squaredNorm ≤ 0) : q.invert = none := by
  unfold Quaternion.invert
  exact if_pos h

/-- C4: on a singular operand every invert and divide fails with null and
the receiver keeps its prior state: a Matrix4 with |determinant| below
EPSILON = 1e-8, a Quaternion with squaredNorm at most 0, and divide on
either type when the ARGUMENT is singular in that sense. -/
theorem C4_singular_failure_preserves_receiver :
    (∀ M : Matrix4, |M.determinant| < EPSILON → M.invertCall = (none, M)) ∧
    (∀ q : Quaternion, q.squaredNorm ≤ 0 → q.invertCall = (none, q)) ∧
    (∀ M N : Matrix4, |N.determinant| < EPSILON →
      M.divideCall N = (none, M)) ∧
    (∀ p q : Quaternion, q.squaredNorm ≤ 0 → p.divideCall q = (none, p)) := by
  refine ⟨?_, ?_, ?_, ?_⟩
  · intro M h
    unfold Matrix4.invertCall
    rw [invert_none_of_singular M h]
  · intro q h
    unfold Quaternion.invertCall
    rw [quaternion_invert_none_of_singular q h]
  · intro M N h
    unfold Matrix4.divideCall
    rw [invert_none_of_singular N h]
  · intro p q h
    unfold Quaternion.divideCall
    rw [quaternion_invert_none_of_singular q h]

/-- Witness for C4 at concrete singular operands: the zero matrix and the
zero quaternion. -/
theorem C4_witness :
    Matrix4.invertCall Matrix4.zero = (none, Matrix4.zero) ∧
    Quaternion.invertCall ⟨0, 0, 0, 0⟩ = (none, ⟨0, 0, 0, 0⟩) ∧
    Matrix4.divideCall Matrix4.identity Matrix4.zero =
      (none, Matrix4.identity) ∧
    Quaternion.divideCall Quaternion.identity ⟨0, 0, 0, 0⟩ =
      (none, Quaternion.identity) :=
  ⟨C4_singular_failure_preserves_receiver.1 Matrix4.zero
      (by norm_num [Matrix4.determinant, Matrix4.zero, EPSILON]),
   C4_singular_failure_preserves_receiver.2.1 ⟨0, 0, 0, 0⟩
      (by norm_num [Quaternion.squaredNorm]),
   C4_singular_failure_preserves_receiver.2.2.1 Matrix4.identity Matrix4.zero
      (by norm_num [Matrix4.determinant, Matrix4.zero, EPSILON]),
   C4_singular_failure_preserves_receiver.2.2.2 Quaternion.identity
      ⟨0, 0, 0, 0⟩ (by norm_num [Quaternion.squaredNorm])⟩

/-- C5: the claim demands that EVERY VectorN with length() at most 0 be left
unchanged by normalize().  Vector1.normalize has no such guard: on the zero
vector it computes 0 / 0, which in JavaScript is NaN (modelled none), so
the component does NOT stay 0. -/
theorem C5_counterexample_vector1_zero :
    Vector1.length ⟨0⟩ ≤ 0 ∧
    Vector1.normalize ⟨0⟩ = none ∧
    Vector1.normalize ⟨0⟩ ≠ some ⟨0⟩ := by
  with_unfolding_all decide

/-- C5 (amended): Vector2, Vector3 and Vector4 leave the vector unchanged
whenever length() is at most 0, for every square-root function in place of
Math.sqrt; Vector1.normalize instead divides unconditionally, so the zero
Vector1 becomes NaN (none) rather than staying unchanged. -/
theorem C5_normalize_guard :
    (∀ (sqrt : ℚ → ℚ) (v : Vector2), v.length sqrt ≤ 0 →
      v.normalize sqrt = v) ∧
    (∀ (sqrt : ℚ → ℚ) (v : Vector3), v.length sqrt ≤ 0 →
      v.normalize sqrt = v) ∧
    (∀ (sqrt : ℚ → ℚ) (v : Vector4), v.length sqrt ≤ 0 →
      v.normalize sqrt = v) ∧
    Vector1.normalize ⟨0⟩ = none := by
  refine ⟨?_, ?_, ?_, ?_⟩
  · intro sqrt v h
    simp only [Vector2.normalize]
    rw [if_pos h]
  · intro sqrt v h
    simp only [Vector3.normalize]
    rw [if_pos h]
  · intro sqrt v h
    simp only [Vector4.normalize]
    rw [if_pos h]
  · with_unfolding_all decide

/-- Witness for C5 at the zero vectors, with the square-root function that
sends every input to 0 (the value of the real square root at 0). -/
theorem C5_witness :
    Vector2.normalize (fun _ => 0) ⟨0, 0⟩ = ⟨0, 0⟩ ∧
    Vector3.normalize (fun _ => 0) ⟨0, 0, 0⟩ = ⟨0, 0, 0⟩ ∧
    Vector4.normalize (fun _ => 0) ⟨0, 0, 0, 0⟩ = ⟨0, 0, 0, 0⟩ :=
  ⟨C5_normalize_guard.1 (fun _ => 0) ⟨0, 0⟩ (by norm_num [Vector2.length]),
   C5_normalize_guard.2.1 (fun _ => 0) ⟨0, 0, 0⟩
      (by norm_num [Vector3.length]),
   C5_normalize_guard.2.2.1 (fun _ => 0) ⟨0, 0, 0, 0⟩
      (by norm_num [Vector4.length])⟩

set_option maxHeartbeats 2000000 in
/-- C6: whenever invert succeeds (the singularity guard passed), the
inverted clone multiplied by the original matrix is exactly the identity
matrix, over exact arithmetic. -/
theorem C6_invert_then_multiply_is_identity (M Minv : Matrix4)
    (h : M.invert = some Minv) :
    Minv.multiply M = Matrix4.identity := by
  by_cases hd : |M.determinant| < EPSILON
  · rw [invert_none_of_singular M hd] at h
    exact absurd h (by simp)
  · unfold Matrix4.invert at h
    rw [if_neg hd] at h
    have hdet : M.determinant ≠ 0 := by
      intro h0
      apply hd
      rw [h0, abs_zero]
      norm_num [EPSILON]
    replace h := Option.some.inj h
    subst h
    simp only [Matrix4.determinant] at hdet
    ext <;>
      simp only [Matrix4.multiply, Matrix4.identity, Matrix4.determinant] <;>
      field_simp <;>
      ring

/-- Witness for C6 at a concrete invertible matrix (scale 2 along x
composed with translation (1, 2, 3), determinant 2). -/
theorem C6_witness :
    Matrix4.multiply
        ⟨1/2, 0, 0, 0, 0, 1, 0, 0, 0, 0, 1, 0, -1/2, -2, -3, 1⟩
        ⟨2, 0, 0, 0, 0, 1, 0, 0, 0, 0, 1, 0, 1, 2, 3, 1⟩ =
      Matrix4.identity :=
  C6_invert_then_multiply_is_identity
    ⟨2, 0, 0, 0, 0, 1, 0, 0, 0, 0, 1, 0, 1, 2, 3, 1⟩
    ⟨1/2, 0, 0, 0, 0, 1, 0, 0, 0, 0, 1, 0, -1/2, -2, -3, 1⟩
    (by with_unfolding_all decide)

/-- C8: two matrices that agree everywhere except at buffer indexes 12, 13,
14 (the fields e30, e31, e32, the translation column) send every Vector3 to
the same result under applyMatrix4, because the implicit w is 0. -/
theorem C8_translation_does_not_affect_vector3 (v : Vector3) (M N : Matrix4)
    (h00 : M.e00 = N.e00) (h01 : M.e01 = N.e01) (h02 : M.e02 = N.e02)
    (_h03 : M.e03 = N.e03) (h10 : M.e10 = N.e10) (h11 : M.e11 = N.e11)
    (h12 : M.e12 = N.e12) (_h13 : M.e13 = N.e13) (h20 : M.e20 = N.e20)
    (h21 : M.e21 = N.e21) (h22 : M.e22 = N.e22) (_h23 : M.e23 = N.e23)
    (_h33 : M.e33 = N.e33) :
    v.applyMatrix4 M = v.applyMatrix4 N := by
  simp [Vector3.applyMatrix4, Matrix4.applyVector, mul_zero, add_zero,
    h00, h01, h02, h10, h11, h12, h20, h21, h22]

/-- Witness for C8: the identity matrix and the identity with translation
column (5, 6, 7) act identically on the vector (1, 2, 3). -/
theorem C8_witness :
    Vector3.applyMatrix4 ⟨1, 2, 3⟩ Matrix4.identity =
      Vector3.applyMatrix4 ⟨1, 2, 3⟩
        ⟨1, 0, 0, 0, 0, 1, 0, 0, 0, 0, 1, 0, 5, 6, 7, 1⟩ :=
  C8_translation_does_not_affect_vector3 ⟨1, 2, 3⟩ Matrix4.identity
    ⟨1, 0, 0, 0, 0, 1, 0, 0, 0, 0, 1, 0, 5, 6, 7, 1⟩
    rfl rfl rfl rfl rfl rfl rfl rfl rfl rfl rfl rfl rfl

/-- C9: the claim pairs the formula (r sin theta cos phi, r sin theta
sin phi, r cos theta) with the example phi = pi/2, theta = pi, radius = 1
yielding (-1, 0, 0).  Under the formula that example yields (0, 0, -1):
here angles are encoded in quarter turns (1 stands for pi/2, 2 for pi) and
qsin, qcos hold the reference sine and cosine values at those angles, which
is all toVector3 consults. -/
theorem C9_counterexample_example_input :
    qsin 1 = 1 ∧ qsin 2 = 0 ∧ qcos 1 = 0 ∧ qcos 2 = -1 ∧
    PolarCoordinate3.toVector3 qsin qcos ⟨1, 2, 1⟩ = ⟨0, 0, -1⟩ ∧
    PolarCoordinate3.toVector3 qsin qcos ⟨1, 2, 1⟩ ≠ ⟨-1, 0, 0⟩ := by
  with_unfolding_all decide

/-- C9 (amended): toVector3 writes exactly (r sin theta cos phi, r sin theta
sin phi, r cos theta) into the out vector without touching the receiver,
for every sine and cosine function; and the example input reaching
(-1, 0, 0) at radius 1 is phi = pi, theta = pi/2 - the constructor order of
the spec fixture PolarCoordinate3(pi, pi/2, 1) - for every sine and cosine
functions taking the reference values at those angles. -/
theorem C9_toVector3_formula_and_example :
    ∀ (sin cos : ℚ → ℚ),
      (∀ p : PolarCoordinate3,
        PolarCoordinate3.toVector3 sin cos p =
          ⟨p.radius * sin p.theta * cos p.phi,
           p.radius * sin p.theta * sin p.phi,
           p.radius * cos p.theta⟩) ∧
      (∀ piv half : ℚ, sin half = 1 → sin piv = 0 → cos half = 0 →
        cos piv = -1 →
        PolarCoordinate3.toVector3 sin cos ⟨piv, half, 1⟩ = ⟨-1, 0, 0⟩) := by
  intro sin cos
  constructor
  · intro p
    rfl
  · intro piv half h1 h2 h3 h4
    simp only [PolarCoordinate3.toVector3, h1, h2, h3, h4]
    norm_num

/-- Witness for C9 at the quarter-turn encoding: phi = pi (code 2),
theta = pi/2 (code 1), radius 1 reaches (-1, 0, 0). -/
theorem C9_witness :
    PolarCoordinate3.toVector3 qsin qcos ⟨2, 1, 1⟩ = ⟨-1, 0, 0⟩ :=
  (C9_toVector3_formula_and_example qsin qcos).2 2 1
    (by norm_num [qsin]) (by norm_num [qsin])
    (by norm_num [qcos]) (by norm_num [qcos])

end Mathue
